import Mathlib

/-!
Verification of the gold-ledger valuation and cache-consistency core.

The embedding models JavaScript numbers as rationals (ℚ); an extended type
JsNum with NaN and the two infinities is used where non-finite behaviour
matters. Map state is modelled as functions from keys to optional entries,
and the asynchronous store collaborator as an explicit Except-valued
response that each operation consumes exactly once; the fetches field of a
result counts how many store requests the operation issued.
-/

namespace GoldLedger

/-! ## Valuation engine, src/lib/utils/ledger-utils.ts -/

/-- Computable floor of a rational, used so that the embedded functions are
executable; equal to the Mathlib floor by ratFloor_eq. -/
def ratFloor (q : ℚ) : ℤ := q.num / q.den

/-- JavaScript Math.round on a rational: ties round toward positive
infinity, which is floor of x + 1/2. -/
def jsRound (x : ℚ) : ℤ := ratFloor (x + 1/2)

/-- Embedding of roundToNearest5 from src/lib/utils/ledger-utils.ts:
Math.round(amount / 5) * 5. -/
def roundToNearest5 (amount : ℚ) : ℚ := (jsRound (amount / 5) : ℚ) * 5

/-- Embedding of truncateTo3Decimals from src/lib/utils/ledger-utils.ts:
Math.floor(value * 1000) / 1000. -/
def truncateTo3Decimals (value : ℚ) : ℚ := (ratFloor (value * 1000) : ℚ) / 1000

/-- Embedding of calculatePureWeight from src/lib/utils/ledger-utils.ts:
truncateTo3Decimals(grossWeight * purity); purity is documented there as a
decimal in the range 0 to 1 and is multiplied in directly, with no
division by 100. -/
def calculatePureWeight (grossWeight : ℚ) (purity : ℚ) : ℚ :=
  truncateTo3Decimals (grossWeight * purity)

/-! ## Extended JavaScript numbers, for non-finite behaviour -/

/-- A JavaScript number: a finite value (modelled as a rational) or one of
the non-finite values NaN, Infinity, -Infinity. -/
inductive JsNum where
  | finite : ℚ → JsNum
  | nan : JsNum
  | posInf : JsNum
  | negInf : JsNum
deriving DecidableEq

/-- IEEE-754 multiplication on JsNum (overflow of finite products is not
modelled): NaN propagates, infinity times zero is NaN, infinity times a
nonzero value keeps the sign rule. -/
def mulJ : JsNum → JsNum → JsNum
  | JsNum.nan, _ => JsNum.nan
  | _, JsNum.nan => JsNum.nan
  | JsNum.finite a, JsNum.finite b => JsNum.finite (a * b)
  | JsNum.finite a, JsNum.posInf =>
      if a = 0 then JsNum.nan else if 0 < a then JsNum.posInf else JsNum.negInf
  | JsNum.finite a, JsNum.negInf =>
      if a = 0 then JsNum.nan else if 0 < a then JsNum.negInf else JsNum.posInf
  | JsNum.posInf, JsNum.finite b =>
      if b = 0 then JsNum.nan else if 0 < b then JsNum.posInf else JsNum.negInf
  | JsNum.negInf, JsNum.finite b =>
      if b = 0 then JsNum.nan else if 0 < b then JsNum.negInf else JsNum.posInf
  | JsNum.posInf, JsNum.posInf => JsNum.posInf
  | JsNum.posInf, JsNum.negInf => JsNum.negInf
  | JsNum.negInf, JsNum.posInf => JsNum.negInf
  | JsNum.negInf, JsNum.negInf => JsNum.posInf

/-- Division of a JsNum by a fixed positive finite rational constant (the
code only divides by the literals 5 and 1000). -/
def divJpos : JsNum → ℚ → JsNum
  | JsNum.nan, _ => JsNum.nan
  | JsNum.posInf, _ => JsNum.posInf
  | JsNum.negInf, _ => JsNum.negInf
  | JsNum.finite a, c => JsNum.finite (a / c)

/-- JavaScript Math.round on JsNum: NaN and the infinities map to
themselves. -/
def jsRoundJ : JsNum → JsNum
  | JsNum.finite q => JsNum.finite ((jsRound q : ℚ))
  | JsNum.nan => JsNum.nan
  | JsNum.posInf => JsNum.posInf
  | JsNum.negInf => JsNum.negInf

/-- JavaScript Math.floor on JsNum: NaN and the infinities map to
themselves. -/
def jsFloorJ : JsNum → JsNum
  | JsNum.finite q => JsNum.finite ((ratFloor q : ℚ))
  | JsNum.nan => JsNum.nan
  | JsNum.posInf => JsNum.posInf
  | JsNum.negInf => JsNum.negInf

/-- roundToNearest5 run on an extended JavaScript number, following the
source text Math.round(amount / 5) * 5. -/
def roundToNearest5J (amount : JsNum) : JsNum :=
  mulJ (jsRoundJ (divJpos amount 5)) (JsNum.finite 5)

/-- truncateTo3Decimals run on an extended JavaScript number, following
the source text Math.floor(value * 1000) / 1000. -/
def truncateTo3DecimalsJ (value : JsNum) : JsNum :=
  divJpos (jsFloorJ (mulJ value (JsNum.finite 1000))) 1000

/-- calculatePureWeight run on extended JavaScript numbers. -/
def calculatePureWeightJ (grossWeight : JsNum) (purity : JsNum) : JsNum :=
  truncateTo3DecimalsJ (mulJ grossWeight purity)

/-- The failure the specification demands for non-finite valuation
inputs. -/
inductive ValuationError where
  | invalidInput : ValuationError
deriving DecidableEq

/-- Modelled from the spec and used only for comparison with the code
embedding: the specification version of roundToNearest5 that rejects
non-finite input with InvalidInput and accepts every finite input. -/
def roundToNearest5Spec (x : JsNum) : Except ValuationError JsNum :=
  match x with
  | JsNum.finite q => Except.ok (JsNum.finite (roundToNearest5 q))
  | _ => Except.error ValuationError.invalidInput

/-! ## Data model and API service, src/unnamed/part_001 -/

/-- The Ledger record of the API service. -/
structure Ledger where
  id : String
  name : String
  metalBalance : ℚ
  cashBalance : ℚ
  lastUpdated : String
deriving DecidableEq

/-- The six transaction types. -/
inductive TxType where
  | sale : TxType
  | purchase : TxType
  | metal_received : TxType
  | metal_given : TxType
  | cash_received : TxType
  | cash_given : TxType
deriving DecidableEq

/-- The Transaction record of the API service. -/
structure Transaction where
  id : String
  ledgerId : String
  type : TxType
  amount : Option ℚ
  weight : Option ℚ
  purity : Option ℚ
  timestamp : String
deriving DecidableEq

/-- A transaction creation request: a Transaction minus the
server-assigned id and timestamp. -/
structure TransactionRequest where
  ledgerId : String
  type : TxType
  amount : Option ℚ
  weight : Option ℚ
  purity : Option ℚ
deriving DecidableEq

/-- One entry of the module-level ledgerCache map: the cached snapshot
and the timestamp at which it was stored. -/
structure CacheEntry where
  data : Ledger
  timestamp : ℤ
deriving DecidableEq

/-- The ledgerCache map, as a function from ledger id to optional
entry. -/
def LedgerCache : Type := String → Option CacheEntry

/-- The base address constant of the API service. -/
def API_BASE_URL : String := "http://localhost:8080"

/-- The TTL constant of the API service; the source sets it to 0. -/
def CACHE_TTL : ℤ := 0

/-- Outcome of one getLedger call: the returned or thrown value, the
cache state after the call, and the number of store fetches issued. -/
structure GetLedgerResult where
  result : Except String Ledger
  cache : LedgerCache
  fetches : ℕ

/-- The fetch-and-cache path of getLedger: on a 2xx store response the
ledger is stored under its id with the current time and returned; on any
failure the thrown error is replaced by the constant message and the
cache is left untouched. -/
def fetchLedger (cache : LedgerCache) (now : ℤ) (id : String)
    (store : Except String Ledger) : GetLedgerResult :=
  match store with
  | Except.ok data =>
      ⟨Except.ok data,
       fun k => if k = id then some ⟨data, now⟩ else cache k, 1⟩
  | Except.error _ => ⟨Except.error "Failed to fetch ledger", cache, 1⟩

/-- Embedding of getLedger from the API service, parameterised by the TTL
constant: return the cached snapshot if its age is strictly below the
TTL, otherwise fetch from the store. -/
def getLedgerAt (ttl : ℤ) (cache : LedgerCache) (now : ℤ) (id : String)
    (store : Except String Ledger) : GetLedgerResult :=
  match cache id with
  | some cachedLedger =>
      if now - cachedLedger.timestamp < ttl then
        ⟨Except.ok cachedLedger.data, cache, 0⟩
      else fetchLedger cache now id store
  | none => fetchLedger cache now id store

/-- getLedger with the TTL constant of the source. -/
def getLedger (cache : LedgerCache) (now : ℤ) (id : String)
    (store : Except String Ledger) : GetLedgerResult :=
  getLedgerAt CACHE_TTL cache now id store

/-- The request URL getLedgers issues: the search argument is never used
and no query parameter is attached. -/
def getLedgersRequest (debouncedSearchValue : Option String) : String :=
  API_BASE_URL ++ "/api/ledgers"

/-- Embedding of getLedgers from the API service: returns the parsed
store response, replacing any failure by the constant message; the
debouncedSearchValue parameter is ignored. -/
def getLedgers (debouncedSearchValue : Option String)
    (response : Except String (List Ledger)) : Except String (List Ledger) :=
  match response with
  | Except.ok data => Except.ok data
  | Except.error _ => Except.error "Failed to fetch ledgers"

/-- Outcome of one createTransaction call: the returned or thrown value,
the cache state after the call, and the number of store requests
issued. -/
structure CreateTxResult where
  result : Except String Transaction
  cache : LedgerCache
  fetches : ℕ

/-- Embedding of createTransaction from the API service: POST the request
once; on success delete the cache entry of the ledger and return the
created transaction; on failure leave the cache untouched and throw the
constant message. -/
def createTransaction (cache : LedgerCache) (transaction : TransactionRequest)
    (store : Except String Transaction) : CreateTxResult :=
  match store with
  | Except.ok data =>
      ⟨Except.ok data,
       fun k => if k = transaction.ledgerId then none else cache k, 1⟩
  | Except.error _ => ⟨Except.error "Failed to create transaction", cache, 1⟩

/-! ## The NewTransaction derivation effect, src/unnamed/part_000 -/

/-- Whether a transaction type is one of the two cash-only types that the
NewTransaction effect excludes from weight derivation. -/
def isCashType : TxType → Bool
  | TxType.cash_received => true
  | TxType.cash_given => true
  | _ => false

/-- The watched form values of the NewTransaction page. -/
structure FormState where
  type : TxType
  grossWeight : Option ℚ
  purity : Option ℚ
  rate : Option ℚ
  amount : Option ℚ
  paidAmount : Option ℚ
deriving DecidableEq

/-- The state after one run of the NewTransaction derivation effect: the
pureWeight, roundedAmount and balance pieces of state, and the form
amount field after any setValue call the effect made. -/
structure EffectOut where
  pureWeight : Option ℚ
  amount : Option ℚ
  roundedAmount : Option ℚ
  balance : Option ℚ
deriving DecidableEq

/-- One run of the useEffect at the top of NewTransaction, over a
snapshot of the watched values. JavaScript truthiness makes a missing
field and a zero field behave alike; paidAmount alone is compared against
undefined instead. The pure weight is derived as
truncateTo3Decimals(grossWeight * (purity / 100)); if rate and the
derived pure weight are truthy, the form amount is overwritten with
roundToNearest5(pureWeight * rate). roundedAmount and balance are derived
from the amount snapshot taken before that overwrite. -/
def runDerivationEffect (s : FormState) : EffectOut :=
  let pwAmt : Option ℚ × Option ℚ :=
    match s.grossWeight, s.purity with
    | some g, some p =>
        if g ≠ 0 ∧ p ≠ 0 ∧ isCashType s.type = false then
          let calculatedPureWeight := truncateTo3Decimals (g * (p / 100))
          match s.rate with
          | some r =>
              if r ≠ 0 ∧ calculatedPureWeight ≠ 0 then
                (some calculatedPureWeight,
                 some (roundToNearest5 (calculatedPureWeight * r)))
              else (some calculatedPureWeight, s.amount)
          | none => (some calculatedPureWeight, s.amount)
        else (none, s.amount)
    | _, _ => (none, s.amount)
  let roundedAmount : Option ℚ :=
    match s.amount with
    | some a => if a ≠ 0 then some (roundToNearest5 a) else none
    | none => none
  let balance : Option ℚ :=
    match s.amount, s.paidAmount with
    | some a, some paid => if a ≠ 0 then some (a - paid) else none
    | _, _ => none
  ⟨pwAmt.1, pwAmt.2, roundedAmount, balance⟩

/-! ## Helper lemmas -/

theorem ratFloor_eq (q : ℚ) : ratFloor q = ⌊q⌋ := (Rat.floor_def).symm

theorem ratFloor_eq_of {q : ℚ} {n : ℤ} (h1 : (n : ℚ) ≤ q) (h2 : q < n + 1) :
    ratFloor q = n := by
  rw [ratFloor_eq]
  exact Int.floor_eq_iff.mpr ⟨h1, h2⟩

theorem roundToNearest5_eval (x : ℚ) (n : ℤ) (h1 : (n : ℚ) ≤ x / 5 + 1/2)
    (h2 : x / 5 + 1/2 < n + 1) : roundToNearest5 x = (n : ℚ) * 5 := by
  unfold roundToNearest5 jsRound
  rw [ratFloor_eq_of h1 h2]

theorem truncateTo3Decimals_eval (x : ℚ) (n : ℤ) (h1 : (n : ℚ) ≤ x * 1000)
    (h2 : x * 1000 < n + 1) : truncateTo3Decimals x = (n : ℚ) / 1000 := by
  unfold truncateTo3Decimals
  rw [ratFloor_eq_of h1 h2]

theorem getLedgerAt_none (ttl : ℤ) (cache : LedgerCache) (now : ℤ)
    (id : String) (store : Except String Ledger) (h : cache id = none) :
    getLedgerAt ttl cache now id store = fetchLedger cache now id store := by
  unfold getLedgerAt
  rw [h]

theorem getLedgerAt_hit (ttl : ℤ) (cache : LedgerCache) (now : ℤ)
    (id : String) (store : Except String Ledger) (e : CacheEntry)
    (hc : cache id = some e) (hf : now - e.timestamp < ttl) :
    getLedgerAt ttl cache now id store = ⟨Except.ok e.data, cache, 0⟩ := by
  unfold getLedgerAt
  rw [hc]
  simp [hf]

theorem getLedgerAt_stale (ttl : ℤ) (cache : LedgerCache) (now : ℤ)
    (id : String) (store : Except String Ledger) (e : CacheEntry)
    (hc : cache id = some e) (hf : ¬ (now - e.timestamp < ttl)) :
    getLedgerAt ttl cache now id store = fetchLedger cache now id store := by
  unfold getLedgerAt
  rw [hc]
  simp [hf]

/-! ## Claim theorems -/

/-- C1 counterexample: the claim says calculatePureWeight(10, 99.5) equals
truncateTo3Decimals(10 * 99.5 / 100) = 9.95, but the code multiplies the
purity argument in directly, so calculatePureWeight 10 (199/2) is 995. -/
theorem calculatePureWeight_percent_claim_false :
    calculatePureWeight 10 (199/2) = 995 ∧
    truncateTo3Decimals (10 * (199/2) / 100) = 199/20 ∧
    (995 : ℚ) ≠ 199/20 := by
  refine ⟨?_, ?_, by norm_num⟩
  · unfold calculatePureWeight
    rw [truncateTo3Decimals_eval (10 * (199/2)) 995000 (by norm_num) (by norm_num)]
    norm_num
  · rw [truncateTo3Decimals_eval (10 * (199/2) / 100) 9950 (by norm_num) (by norm_num)]
    norm_num

/-- C1 amended: calculatePureWeight g p equals truncateTo3Decimals (g * p)
with purity taken as a 0 to 1 fraction, so the percent form of the claimed
formula is obtained only by passing purityPercent / 100; in particular
calculatePureWeight 10 0.995 = 9.95 while calculatePureWeight 10 99.5 =
995. -/
theorem calculatePureWeight_fraction_spec :
    (∀ g p : ℚ, calculatePureWeight g p = truncateTo3Decimals (g * p)) ∧
    (∀ g p : ℚ,
      calculatePureWeight g (p / 100) = truncateTo3Decimals (g * p / 100)) ∧
    calculatePureWeight 10 (199/200) = 199/20 ∧
    calculatePureWeight 10 (199/2) = 995 := by
  refine ⟨fun g p => rfl, fun g p => ?_, ?_, ?_⟩
  · unfold calculatePureWeight
    rw [mul_div_assoc]
  · unfold calculatePureWeight
    rw [truncateTo3Decimals_eval (10 * (199/200)) 9950 (by norm_num) (by norm_num)]
    norm_num
  · unfold calculatePureWeight
    rw [truncateTo3Decimals_eval (10 * (199/2)) 995000 (by norm_num) (by norm_num)]
    norm_num

/-- C5 counterexample: the claim says the rounding of x / 5 uses
round-half-away-from-zero, which at x = -12.5 would give -15; the code
uses Math.round, which rounds the tie -2.5 up to -2, giving -10. -/
theorem roundToNearest5_negative_half_claim_false :
    roundToNearest5 (-25/2) = -10 ∧ ((-10 : ℚ) ≠ -15) := by
  constructor
  · rw [roundToNearest5_eval (-25/2) (-2) (by norm_num) (by norm_num)]
    norm_num
  · norm_num

/-- C5 amended: roundToNearest5 x = round(x / 5) * 5 where the rounding is
half-up (ties toward positive infinity): any x / 5 within the half-open
interval from n - 1/2 to n + 1/2 maps to 5 n. For positive inputs this
agrees with half-away-from-zero, giving 10092.5, 10093 to 10095 and 10092
to 10090, but a negative tie such as -12.5 rounds toward zero, to -10. -/
theorem roundToNearest5_half_up_spec (x : ℚ) (n : ℤ)
    (h1 : (n : ℚ) - 1/2 ≤ x / 5) (h2 : x / 5 < (n : ℚ) + 1/2) :
    roundToNearest5 x = (n : ℚ) * 5 ∧
    roundToNearest5 (20185/2) = 10095 ∧
    roundToNearest5 10093 = 10095 ∧
    roundToNearest5 10092 = 10090 ∧
    roundToNearest5 (-25/2) = -10 := by
  refine ⟨roundToNearest5_eval x n (by linarith) (by linarith), ?_, ?_, ?_, ?_⟩
  · rw [roundToNearest5_eval (20185/2) 2019 (by norm_num) (by norm_num)]; norm_num
  · rw [roundToNearest5_eval 10093 2019 (by norm_num) (by norm_num)]; norm_num
  · rw [roundToNearest5_eval 10092 2018 (by norm_num) (by norm_num)]; norm_num
  · rw [roundToNearest5_eval (-25/2) (-2) (by norm_num) (by norm_num)]; norm_num

/-- C5 witness: the half-up characterisation applied at x = 10093,
n = 2019. -/
theorem roundToNearest5_half_up_spec_witness :
    (((2019 : ℤ) : ℚ) - 1/2 ≤ 10093 / 5 ∧
      (10093 : ℚ) / 5 < ((2019 : ℤ) : ℚ) + 1/2) ∧
    (roundToNearest5 10093 = ((2019 : ℤ) : ℚ) * 5 ∧
      roundToNearest5 (20185/2) = 10095 ∧
      roundToNearest5 10093 = 10095 ∧
      roundToNearest5 10092 = 10090 ∧
      roundToNearest5 (-25/2) = -10) :=
  ⟨⟨by norm_num, by norm_num⟩,
    roundToNearest5_half_up_spec 10093 2019 (by norm_num) (by norm_num)⟩

/-- C6 confirmed: roundToNearest5 is idempotent on every rational. -/
theorem roundToNearest5_idempotent (x : ℚ) :
    roundToNearest5 (roundToNearest5 x) = roundToNearest5 x := by
  unfold roundToNearest5 jsRound
  simp only [ratFloor_eq]
  have h5 : ((⌊x / 5 + 1/2⌋ : ℚ)) * 5 / 5 = ((⌊x / 5 + 1/2⌋ : ℚ)) := by
    field_simp
  rw [h5, Int.floor_int_add]
  have hh : ⌊(1 : ℚ)/2⌋ = 0 := Int.floor_eq_iff.mpr ⟨by norm_num, by norm_num⟩
  rw [hh, add_zero]

/-- C7 confirmed: truncateTo3Decimals x is floor(x * 1000) / 1000,
truncateTo3Decimals x * 1000 is an integer, the result never exceeds x
(truncation toward negative infinity, including for negative x as shown by
the -1/2000 instance, which a truncation toward zero would send to 0),
and it loses less than 1/1000. -/
theorem truncateTo3Decimals_spec (x : ℚ) :
    truncateTo3Decimals x = ((⌊x * 1000⌋ : ℤ) : ℚ) / 1000 ∧
    (∃ n : ℤ, truncateTo3Decimals x * 1000 = (n : ℚ)) ∧
    truncateTo3Decimals x ≤ x ∧
    x - truncateTo3Decimals x < 1/1000 ∧
    truncateTo3Decimals (-1/2000) = -1/1000 := by
  have he : truncateTo3Decimals x = ((⌊x * 1000⌋ : ℤ) : ℚ) / 1000 := by
    unfold truncateTo3Decimals
    rw [ratFloor_eq]
  have h1 : ((⌊x * 1000⌋ : ℤ) : ℚ) ≤ x * 1000 := Int.floor_le _
  have h2 : x * 1000 < ((⌊x * 1000⌋ : ℤ) : ℚ) + 1 := Int.lt_floor_add_one _
  refine ⟨he, ⟨⌊x * 1000⌋, by rw [he]; field_simp⟩, by rw [he]; linarith,
    by rw [he]; linarith, ?_⟩
  rw [truncateTo3Decimals_eval (-1/2000) (-1) (by norm_num) (by norm_num)]
  norm_num

/-- C8 counterexample: the claim says every valuation function fails with
InvalidInput on a non-finite argument, but the code performs no input
validation at all: roundToNearest5 applied to NaN returns NaN, where the
specification version rejects it. -/
theorem roundToNearest5_no_invalidInput_claim_false :
    roundToNearest5J JsNum.nan = JsNum.nan ∧
    roundToNearest5Spec JsNum.nan = Except.error ValuationError.invalidInput ∧
    Except.ok (roundToNearest5J JsNum.nan) ≠ roundToNearest5Spec JsNum.nan := by
  refine ⟨rfl, rfl, ?_⟩
  intro h
  simp [roundToNearest5J, roundToNearest5Spec, mulJ, jsRoundJ, divJpos] at h

/-- C8 amended: the valuation functions are total and never fail; a
non-finite argument is not rejected but flows through the arithmetic (NaN
maps to NaN, the infinities to themselves, and infinity times zero inside
calculatePureWeight to NaN), and every finite input is accepted and
computed as in the rational model. -/
theorem valuation_total_on_JsNum (q p : ℚ) :
    roundToNearest5J (JsNum.finite q) = JsNum.finite (roundToNearest5 q) ∧
    truncateTo3DecimalsJ (JsNum.finite q) =
      JsNum.finite (truncateTo3Decimals q) ∧
    calculatePureWeightJ (JsNum.finite q) (JsNum.finite p) =
      JsNum.finite (calculatePureWeight q p) ∧
    roundToNearest5J JsNum.nan = JsNum.nan ∧
    roundToNearest5J JsNum.posInf = JsNum.posInf ∧
    roundToNearest5J JsNum.negInf = JsNum.negInf ∧
    truncateTo3DecimalsJ JsNum.nan = JsNum.nan ∧
    truncateTo3DecimalsJ JsNum.posInf = JsNum.posInf ∧
    truncateTo3DecimalsJ JsNum.negInf = JsNum.negInf ∧
    calculatePureWeightJ JsNum.nan (JsNum.finite p) = JsNum.nan ∧
    calculatePureWeightJ JsNum.posInf (JsNum.finite 0) = JsNum.nan ∧
    calculatePureWeightJ JsNum.posInf (JsNum.finite 1) = JsNum.posInf := by
  refine ⟨?_, rfl, rfl, rfl, ?_, ?_, rfl, rfl, rfl, rfl, ?_, ?_⟩
  · show mulJ (JsNum.finite _) (JsNum.finite 5) = _
    rfl
  · show mulJ JsNum.posInf (JsNum.finite 5) = JsNum.posInf
    simp [mulJ]
  · show mulJ JsNum.negInf (JsNum.finite 5) = JsNum.negInf
    simp [mulJ]
  · simp [calculatePureWeightJ, truncateTo3DecimalsJ, mulJ, jsFloorJ, divJpos]
  · simp [calculatePureWeightJ, truncateTo3DecimalsJ, mulJ, jsFloorJ, divJpos]

/-- C9 confirmed: getLedgers issues the same request, the plain ledgers
endpoint with no query parameter, and computes the same result for the
same store response, whatever its search argument is; the
debouncedSearchValue parameter has no effect. -/
theorem getLedgers_ignores_search (q1 q2 : Option String)
    (response : Except String (List Ledger)) :
    getLedgersRequest q1 = getLedgersRequest q2 ∧
    getLedgersRequest q1 = "http://localhost:8080/api/ledgers" ∧
    getLedgers q1 response = getLedgers q2 response :=
  ⟨rfl, rfl, rfl⟩

/-- C3 counterexample: on a store failure getLedger does not propagate the
error of the store; the catch block replaces it with the constant message
Failed to fetch ledger. -/
theorem getLedger_error_not_propagated :
    (getLedger (fun _ => none) 0 "L1" (Except.error "HTTP 500")).result
      = Except.error "Failed to fetch ledger" ∧
    (getLedger (fun _ => none) 0 "L1" (Except.error "HTTP 500")).result
      ≠ Except.error "HTTP 500" := by
  refine ⟨rfl, ?_⟩
  intro h
  simp [getLedger, getLedgerAt, fetchLedger] at h

/-- C3 amended: a get on an entry younger than the TTL returns the cached
snapshot with no store fetch and an unchanged cache; a get on a missing
id fetches once, stores the result under the current timestamp and
returns it; a later get within the TTL of that fetch issues no store
fetch while a get at or past the TTL issues a second fetch; a failed
fetch leaves the whole cache unchanged and fails, but with the constant
message Failed to fetch ledger rather than the original store error,
which is only logged. -/
theorem getLedger_cache_contract (ttl t0 t1 t2 : ℤ) (cache : LedgerCache)
    (id : String) (d : Ledger) (s1 s2 : Except String Ledger) (msg : String)
    (h0 : cache id = none) (h1 : t1 - t0 < ttl) (h2 : ttl ≤ t2 - t0) :
    getLedgerAt ttl cache t0 id (Except.ok d) =
      ⟨Except.ok d, fun k => if k = id then some ⟨d, t0⟩ else cache k, 1⟩ ∧
    getLedgerAt ttl (fun k => if k = id then some ⟨d, t0⟩ else cache k)
        t1 id s1 =
      ⟨Except.ok d, fun k => if k = id then some ⟨d, t0⟩ else cache k, 0⟩ ∧
    (getLedgerAt ttl (fun k => if k = id then some ⟨d, t0⟩ else cache k)
        t2 id s2).fetches = 1 ∧
    getLedgerAt ttl cache t0 id (Except.error msg) =
      ⟨Except.error "Failed to fetch ledger", cache, 1⟩ := by
  have hc1 : (fun k => if k = id then some (⟨d, t0⟩ : CacheEntry) else cache k)
      id = some ⟨d, t0⟩ := by simp
  refine ⟨?_, ?_, ?_, ?_⟩
  · rw [getLedgerAt_none ttl cache t0 id (Except.ok d) h0]
    rfl
  · exact getLedgerAt_hit ttl _ t1 id s1 ⟨d, t0⟩ hc1 h1
  · rw [getLedgerAt_stale ttl _ t2 id s2 ⟨d, t0⟩ hc1 (not_lt.2 h2)]
    cases s2 <;> rfl
  · rw [getLedgerAt_none ttl cache t0 id (Except.error msg) h0]
    rfl

/-- C3 witness: the cache contract applied to a concrete run with TTL 10,
a first fetch at time 0, a hit at time 5 and a stale read at time 10. -/
theorem getLedger_cache_contract_witness :
    ((fun _ => (none : Option CacheEntry)) "L1" = none ∧
      (5 : ℤ) - 0 < 10 ∧ (10 : ℤ) ≤ 10 - 0) ∧
    (getLedgerAt 10 (fun _ => none) 0 "L1"
        (Except.ok ⟨"L1", "Main Vault", 0, 0, "t"⟩) =
      ⟨Except.ok ⟨"L1", "Main Vault", 0, 0, "t"⟩,
       fun k => if k = "L1" then
           some ⟨⟨"L1", "Main Vault", 0, 0, "t"⟩, 0⟩
         else (fun _ => none) k, 1⟩ ∧
    getLedgerAt 10
        (fun k => if k = "L1" then
            some ⟨⟨"L1", "Main Vault", 0, 0, "t"⟩, 0⟩
          else (fun _ => none) k) 5 "L1" (Except.error "down") =
      ⟨Except.ok ⟨"L1", "Main Vault", 0, 0, "t"⟩,
       fun k => if k = "L1" then
           some ⟨⟨"L1", "Main Vault", 0, 0, "t"⟩, 0⟩
         else (fun _ => none) k, 0⟩ ∧
    (getLedgerAt 10
        (fun k => if k = "L1" then
            some ⟨⟨"L1", "Main Vault", 0, 0, "t"⟩, 0⟩
          else (fun _ => none) k) 10 "L1"
        (Except.ok ⟨"L1", "Main Vault", 0, 0, "t"⟩)).fetches = 1 ∧
    getLedgerAt 10 (fun _ => none) 0 "L1" (Except.error "HTTP 500") =
      ⟨Except.error "Failed to fetch ledger", fun _ => none, 1⟩) :=
  ⟨⟨rfl, by decide, by decide⟩,
    getLedger_cache_contract 10 0 5 10 (fun _ => none) "L1"
      ⟨"L1", "Main Vault", 0, 0, "t"⟩ (Except.error "down")
      (Except.ok ⟨"L1", "Main Vault", 0, 0, "t"⟩) "HTTP 500"
      rfl (by decide) (by decide)⟩

/-- C4 counterexample: on a store failure createTransaction does not
surface the error of the store unchanged; the catch block replaces it
with the constant message Failed to create transaction. -/
theorem createTransaction_error_not_propagated :
    (createTransaction (fun _ => none)
        ⟨"L1", TxType.purchase, none, none, none⟩
        (Except.error "HTTP 500")).result
      = Except.error "Failed to create transaction" ∧
    (createTransaction (fun _ => none)
        ⟨"L1", TxType.purchase, none, none, none⟩
        (Except.error "HTTP 500")).result ≠ Except.error "HTTP 500" := by
  refine ⟨rfl, ?_⟩
  intro h
  simp [createTransaction] at h

/-- C4 amended: the cache entry of the ledger of the transaction is
invalidated exactly when the store write succeeds: on success the entry
is removed and the created transaction, with its server-assigned id and
timestamp, is returned; on failure the cache is left untouched and the
call fails after its single store request, but with the constant message
Failed to create transaction instead of the original store error, which
is only logged. -/
theorem createTransaction_invalidation_contract (cache : LedgerCache)
    (transaction : TransactionRequest) (t : Transaction) (msg : String) :
    createTransaction cache transaction (Except.ok t) =
      ⟨Except.ok t,
       fun k => if k = transaction.ledgerId then none else cache k, 1⟩ ∧
    (createTransaction cache transaction (Except.ok t)).cache
        transaction.ledgerId = none ∧
    createTransaction cache transaction (Except.error msg) =
      ⟨Except.error "Failed to create transaction", cache, 1⟩ :=
  ⟨rfl, by simp [createTransaction], rfl⟩

/-- C2 code bug: with an explicitly supplied amount of 1000 and
grossWeight 10, purity 99.5, rate 50 on a purchase, one run of the
NewTransaction derivation effect overwrites the amount field with
roundToNearest5(9.95 * 50) = 500, so the submitted amount is not the
value the caller supplied. -/
theorem derivationEffect_overwrites_explicit_amount :
    (runDerivationEffect
        ⟨TxType.purchase, some 10, some (199/2), some 50, some 1000, none⟩).amount
      = some 500 ∧ some (500 : ℚ) ≠ some (1000 : ℚ) := by
  have hpw : truncateTo3Decimals ((199:ℚ)/20) = 199/20 := by
    rw [truncateTo3Decimals_eval ((199:ℚ)/20) 9950 (by norm_num) (by norm_num)]
    norm_num
  have hra : roundToNearest5 ((199:ℚ)/20 * 50) = 500 := by
    rw [roundToNearest5_eval ((199:ℚ)/20 * 50) 100 (by norm_num) (by norm_num)]
    norm_num
  have hra2 : roundToNearest5 ((995:ℚ)/2) = 500 := by
    rw [roundToNearest5_eval ((995:ℚ)/2) 100 (by norm_num) (by norm_num)]
    norm_num
  constructor
  · simp only [runDerivationEffect, isCashType]
    norm_num [hpw, hra, hra2]
  · norm_num

/-- C10 confirmed: the derivation effect treats a present zero as absent:
a zero amount with a present paidAmount derives no balance, a zero
grossWeight or zero purity on a weight-bearing type derives no pureWeight
and leaves the amount field alone, and a derived pureWeight of zero
suppresses the auto-derivation of amount from rate. -/
theorem derivationEffect_zero_as_absent (s1 s2 s3 : FormState) (g p r : ℚ)
    (h1a : s1.amount = some 0) (h1b : s1.paidAmount.isSome = true)
    (h2 : s2.grossWeight = some 0 ∨ s2.purity = some 0)
    (h2t : isCashType s2.type = false)
    (h3g : s3.grossWeight = some g) (h3p : s3.purity = some p)
    (h3r : s3.rate = some r) (hg : g ≠ 0) (hp : p ≠ 0)
    (h3t : isCashType s3.type = false)
    (hz : truncateTo3Decimals (g * (p / 100)) = 0) :
    (runDerivationEffect s1).balance = none ∧
    (runDerivationEffect s2).pureWeight = none ∧
    (runDerivationEffect s2).amount = s2.amount ∧
    (runDerivationEffect s3).pureWeight = some 0 ∧
    (runDerivationEffect s3).amount = s3.amount := by
  obtain ⟨pa, hpa⟩ := Option.isSome_iff_exists.mp h1b
  have hs2 : (runDerivationEffect s2).pureWeight = none ∧
      (runDerivationEffect s2).amount = s2.amount := by
    rcases h2 with hw | hq
    · cases hq : s2.purity <;>
        simp [runDerivationEffect, hw, hq]
    · cases hw : s2.grossWeight <;>
        simp [runDerivationEffect, hw, hq]
  refine ⟨?_, hs2.1, hs2.2, ?_, ?_⟩
  · simp [runDerivationEffect, h1a, hpa]
  · simp [runDerivationEffect, h3g, h3p, h3r, hg, hp, h3t, hz]
  · simp [runDerivationEffect, h3g, h3p, h3r, hg, hp, h3t, hz]

/-- C10 witness: the zero-as-absent behaviour at concrete form states:
amount 0 with paidAmount 5; grossWeight 0 with purity 50; and grossWeight
1/1000 with purity 50 and rate 100, whose pure weight truncates to 0. -/
theorem derivationEffect_zero_as_absent_witness :
    ((FormState.mk TxType.purchase none none none (some 0)
        (some 5)).amount = some 0 ∧
      (FormState.mk TxType.purchase none none none (some 0)
        (some 5)).paidAmount.isSome = true ∧
      ((FormState.mk TxType.purchase (some 0) (some 50) none none
          none).grossWeight = some 0 ∨
        (FormState.mk TxType.purchase (some 0) (some 50) none none
          none).purity = some 0) ∧
      isCashType TxType.purchase = false ∧
      (FormState.mk TxType.purchase (some (1/1000)) (some 50) (some 100)
        (some 777) none).grossWeight = some (1/1000) ∧
      ((1 : ℚ)/1000) ≠ 0 ∧ ((50 : ℚ)) ≠ 0 ∧
      truncateTo3Decimals ((1/1000) * (50 / 100)) = 0) ∧
    ((runDerivationEffect (FormState.mk TxType.purchase none none none
        (some 0) (some 5))).balance = none ∧
      (runDerivationEffect (FormState.mk TxType.purchase (some 0) (some 50)
        none none none)).pureWeight = none ∧
      (runDerivationEffect (FormState.mk TxType.purchase (some 0) (some 50)
        none none none)).amount =
        (FormState.mk TxType.purchase (some 0) (some 50) none none
          none).amount ∧
      (runDerivationEffect (FormState.mk TxType.purchase (some (1/1000))
        (some 50) (some 100) (some 777) none)).pureWeight = some 0 ∧
      (runDerivationEffect (FormState.mk TxType.purchase (some (1/1000))
        (some 50) (some 100) (some 777) none)).amount =
        (FormState.mk TxType.purchase (some (1/1000)) (some 50) (some 100)
          (some 777) none).amount) :=
  ⟨⟨rfl, rfl, Or.inl rfl, rfl, rfl, by norm_num, by norm_num,
      by rw [truncateTo3Decimals_eval ((1/1000) * (50 / 100)) 0 (by norm_num)
          (by norm_num)]; norm_num⟩,
    derivationEffect_zero_as_absent
      (FormState.mk TxType.purchase none none none (some 0) (some 5))
      (FormState.mk TxType.purchase (some 0) (some 50) none none none)
      (FormState.mk TxType.purchase (some (1/1000)) (some 50) (some 100)
        (some 777) none)
      (1/1000) 50 100 rfl rfl (Or.inl rfl) rfl rfl rfl rfl
      (by norm_num) (by norm_num) rfl
      (by rw [truncateTo3Decimals_eval ((1/1000) * (50 / 100)) 0 (by norm_num)
          (by norm_num)]; norm_num)⟩

end GoldLedger
